import Mathlib

/-!
Shallow embedding of the PTY session manager from `src-tauri/src/pty.rs`
(repository `zoonderkins/moonterm`).

The Rust code manages a registry of PTY-backed shell sessions.  Environmental
effects (PTY allocation, process spawning, OS writes and flushes, child exit
statuses) are passed in as explicit outcome parameters; the deterministic
bookkeeping (registry map, writer buffers, pending exit-monitor threads,
emitted events) is modelled as explicit state.  Platform-conditional code
(`#[cfg(target_os = ...)]`) is modelled by an `OS` parameter.
-/

namespace Moonterm

/-- Host operating system, standing for the compile-time `target_os` cfg. -/
inductive OS
  | windows
  | macos
  | linux
deriving DecidableEq, Repr

/-- Embedding of `PtyManager::get_default_shell`.  `shellEnv` is the value of
the `SHELL` environment variable (`none` when `std::env::var` fails) and
`binBashExists` is whether the path `/bin/bash` exists on a Linux host. -/
def get_default_shell (os : OS) (shellEnv : Option String)
    (binBashExists : Bool) : String × List String :=
  match os with
  | .windows =>
      ("powershell.exe", ["-ExecutionPolicy", "Bypass", "-NoLogo"])
  | .macos =>
      (shellEnv.getD "/bin/zsh", ["-l"])
  | .linux =>
      (match shellEnv with
       | some s => s
       | none => if binBashExists then "/bin/bash" else "/bin/sh", [])

/-- An environment mapping, the lookup view of the Rust `HashMap<String, String>`
collected from `std::env::vars()`. -/
def Env : Type := String → Option String

/-- `HashMap::insert`: the new binding shadows any inherited one. -/
def insertEnv (e : Env) (k v : String) : Env :=
  fun k' => if k' = k then some v else e k'

/-- The joined Homebrew path list `homebrew_paths.join(":")` from
`create_utf8_env`. -/
def homebrewPaths : String :=
  "/opt/homebrew/bin:/opt/homebrew/sbin:/usr/local/bin:/usr/local/sbin"

/-- Embedding of `PtyManager::create_utf8_env`: clone the host environment,
force terminal-capability and UTF-8 locale variables, and on macOS prepend
the Homebrew directories to `PATH`. -/
def create_utf8_env (os : OS) (host : Env) : Env :=
  let e := host
  let e := insertEnv e "TERM" "xterm-256color"
  let e := insertEnv e "COLORTERM" "truecolor"
  let e :=
    match os with
    | .macos =>
        let current := (e "PATH").getD ""
        let newPath :=
          if current = "" then homebrewPaths else homebrewPaths ++ ":" ++ current
        insertEnv e "PATH" newPath
    | _ => e
  let e := insertEnv e "LANG" "en_US.UTF-8"
  let e := insertEnv e "LC_ALL" "en_US.UTF-8"
  let e := insertEnv e "PYTHONIOENCODING" "utf-8"
  let e := insertEnv e "PYTHONUTF8" "1"
  e

/-- The keys `create_utf8_env` unconditionally overrides. -/
def overriddenKeys : List String :=
  ["TERM", "COLORTERM", "LANG", "LC_ALL", "PYTHONIOENCODING", "PYTHONUTF8"]

/-- The UTF-8 byte sequence of a string, i.e. Rust's `str::as_bytes` on the
`String` argument of `write`. -/
def utf8Bytes (s : String) : List Nat :=
  s.toUTF8.toList.map (fun b => b.toNat)

/-- State of one session's writer handle: the bytes successfully handed to
`write_all` so far, and how many `flush` calls have succeeded.  The Rust
writer is an opaque `Box<dyn Write + Send>`; this records the observable
interaction with it. -/
structure WriterState where
  written : List Nat
  flushes : Nat
deriving DecidableEq, Repr

/-- Embedding of the Rust `PtyInstance` struct.  Handles are modelled as
numeric identities: `writer` keys into the manager's writer-state table,
`master` and `child_handle` mirror the `Option`-ness of the Rust fields. -/
structure PtyInstance where
  writer : Nat
  cwd : String
  uses_pty : Bool
  master : Option Nat
  child_handle : Option Nat
deriving DecidableEq, Repr

/-- A pending exit-monitor thread: it holds its own copy of the session id
and waits on a particular underlying child process. -/
structure Monitor where
  sid : String
  proc : Nat
deriving DecidableEq, Repr

/-- Events emitted toward the frontend (`pty:output` / `pty:exit`). -/
inductive Event
  | output (sid : String) (data : String)
  | exit (sid : String) (code : Nat)
deriving DecidableEq, Repr

/-- Association-list view of the `HashMap<String, PtyInstance>` registry:
lookup of the entry for a key (`HashMap::get`). -/
def lookupInst : List (String × PtyInstance) → String → Option PtyInstance
  | [], _ => none
  | (k, v) :: rest, id => if k = id then some v else lookupInst rest id

/-- `HashMap::remove` as seen through lookups: drop every pair with the key. -/
def eraseInst (m : List (String × PtyInstance)) (id : String) :
    List (String × PtyInstance) :=
  m.filter (fun kv => kv.1 != id)

/-- `HashMap::insert`: the new binding replaces any previous one for the key. -/
def insertInst (m : List (String × PtyInstance)) (id : String)
    (v : PtyInstance) : List (String × PtyInstance) :=
  (id, v) :: eraseInst m id

/-- Lookup in the writer-state table. -/
def lookupWriter : List (Nat × WriterState) → Nat → Option WriterState
  | [], _ => none
  | (k, v) :: rest, h => if k = h then some v else lookupWriter rest h

/-- Apply `f` to the writer state stored under handle `h`. -/
def updateWriter (ws : List (Nat × WriterState)) (h : Nat)
    (f : WriterState → WriterState) : List (Nat × WriterState) :=
  ws.map (fun kv => if kv.1 = h then (kv.1, f kv.2) else kv)

/-- Whole-manager state: the registry (`instances` behind the mutex), the
writer handles' observable state, the set of exit-monitor threads that have
not yet fired, the emitted event log, the OS resize requests issued so far,
the child processes explicitly killed, and two counters allocating fresh
handle / process identities. -/
structure ManagerState where
  instances : List (String × PtyInstance)
  writers : List (Nat × WriterState)
  monitors : List Monitor
  events : List Event
  resizes : List (Nat × Nat × Nat)
  killedProcs : List Nat
  nextHandle : Nat
  nextProc : Nat
deriving DecidableEq, Repr

/-- The environment's answer to one `create` call: which of the fallible
steps of `create_with_portable_pty` fails, if any. -/
inductive CreateOutcome
  | openptyFail (e : String)
  | spawnFail (e : String)
  | cloneReaderFail (e : String)
  | takeWriterFail (e : String)
  | ok
deriving DecidableEq, Repr

/-- The environment's answer to one `write` call: whether `write_all` or
`flush` fails on the live writer. -/
inductive WriteOutcome
  | writeErr (e : String)
  | flushErr (e : String)
  | ok
deriving DecidableEq, Repr

/-- Embedding of `PtyManager::create_with_portable_pty`.  On success it
allocates the PTY pair (writer and master handles), spawns the shell (a fresh
process identity), starts the reader and exit-monitor threads, and inserts
the new `PtyInstance`; each failure returns the formatted error of the Rust
`map_err` at that step.  The two failures after `spawn_command` leave a
spawned child behind (no registry entry, no monitor), hence the `nextProc`
bump. -/
def create_with_portable_pty (st : ManagerState) (id cwd : String)
    (out : CreateOutcome) : Except String Unit × ManagerState :=
  match out with
  | .openptyFail e => (.error ("Failed to open pty: " ++ e), st)
  | .spawnFail e => (.error ("Failed to spawn command: " ++ e), st)
  | .cloneReaderFail e =>
      (.error ("Failed to clone reader: " ++ e), { st with nextProc := st.nextProc + 1 })
  | .takeWriterFail e =>
      (.error ("Failed to take writer: " ++ e), { st with nextProc := st.nextProc + 1 })
  | .ok =>
      let w := st.nextHandle
      let m := st.nextHandle + 1
      let p := st.nextProc
      (.ok (),
        { st with
          instances := (insertInst st.instances id
            { writer := w, cwd := cwd, uses_pty := true,
              master := some m, child_handle := none })
          writers := (w, { written := [], flushes := 0 }) :: st.writers
          monitors := { sid := id, proc := p } :: st.monitors
          nextHandle := st.nextHandle + 2
          nextProc := st.nextProc + 1 })

/-- Embedding of `PtyManager::create`: resolve shell and environment (pure,
no effect on manager state), then delegate to `create_with_portable_pty`
only — there is no fallback path — and return `Ok(true)` on success. -/
def create (st : ManagerState) (id cwd : String) (out : CreateOutcome) :
    Except String Bool × ManagerState :=
  match create_with_portable_pty st id cwd out with
  | (.error e, st') => (.error e, st')
  | (.ok _, st') => (.ok true, st')

/-- Embedding of `PtyManager::write`: look up the session (error
`"PTY instance not found"` when absent), then `write_all` the UTF-8 bytes of
`data` and `flush`, surfacing either I/O failure with its formatted message.
The registry map itself is never touched. -/
def write (st : ManagerState) (id data : String) (out : WriteOutcome) :
    Except String Unit × ManagerState :=
  match lookupInst st.instances id with
  | none => (.error "PTY instance not found", st)
  | some inst =>
      match out with
      | .writeErr e => (.error ("Failed to write: " ++ e), st)
      | .flushErr e =>
          (.error ("Failed to flush: " ++ e),
            { st with writers := (updateWriter st.writers inst.writer
                (fun w => { w with written := w.written ++ utf8Bytes data })) })
      | .ok =>
          (.ok (),
            { st with writers := (updateWriter st.writers inst.writer
                (fun w => { written := w.written ++ utf8Bytes data,
                            flushes := w.flushes + 1 })) })

/-- Embedding of `PtyManager::resize`: when the id is registered, backed by a
real PTY and the master handle is present, issue the OS resize request and
discard its result (`osResult` is ignored); in every case return `Ok(())`. -/
def resize (st : ManagerState) (id : String) (cols rows : Nat)
    (osResult : Except String Unit) : Except String Unit × ManagerState :=
  match lookupInst st.instances id with
  | none => (.ok (), st)
  | some inst =>
      if inst.uses_pty then
        match inst.master with
        | some m =>
            let _ := osResult
            (.ok (), { st with resizes := st.resizes ++ [(m, cols, rows)] })
        | none => (.ok (), st)
      else (.ok (), st)

/-- Embedding of `PtyManager::kill`: remove the registry entry if present
(returning `Ok(true)`, and force-killing the child process when a
`child_handle` exists), otherwise `Ok(false)`. -/
def kill (st : ManagerState) (id : String) : Except String Bool × ManagerState :=
  match lookupInst st.instances id with
  | some inst =>
      (.ok true,
        { st with
          instances := eraseInst st.instances id
          killedProcs := (match inst.child_handle with
            | some p => st.killedProcs ++ [p]
            | none => st.killedProcs) })
  | none => (.ok false, st)

/-- Embedding of `PtyManager::restart`: error `"PTY instance not found"` when
the id has no entry; otherwise kill then create fresh under the same id and
the new working directory. -/
def restart (st : ManagerState) (id cwd : String) (out : CreateOutcome) :
    Except String Bool × ManagerState :=
  if (lookupInst st.instances id).isSome then
    match kill st id with
    | (.error e, st') => (.error e, st')
    | (.ok _, st') => create st' id cwd out
  else (.error "PTY instance not found", st)

/-- Embedding of `PtyManager::get_cwd`: a pure lookup returning the recorded
working directory; the state is untouched. -/
def get_cwd (st : ManagerState) (id : String) :
    Except String (Option String) × ManagerState :=
  (.ok ((lookupInst st.instances id).map PtyInstance.cwd), st)

/-- Exit code computed by the exit-monitor thread from `child.wait()`:
the status itself on `Ok`, and `1` when the wait fails. -/
def exitCodeOfWait (w : Except String Nat) : Nat :=
  match w with
  | .ok c => c
  | .error _ => 1

/-- Embedding of the exit-monitor thread body firing for monitor `m` once the
child process `m.proc` has terminated with wait result `w`: emit a single
`pty:exit` event `(id, exitCode)`, then remove the session from the registry.
The monitor itself is consumed (each thread runs once). -/
def runMonitor (st : ManagerState) (m : Monitor) (w : Except String Nat) :
    ManagerState :=
  { st with
    events := st.events ++ [Event.exit m.sid (exitCodeOfWait w)]
    monitors := st.monitors.erase m
    instances := eraseInst st.instances m.sid }

/-- An empty manager, `PtyManager::new`. -/
def initialState : ManagerState :=
  { instances := [], writers := [], monitors := [], events := [],
    resizes := [], killedProcs := [], nextHandle := 0, nextProc := 0 }

/-- A sample registered instance used to instantiate theorems. -/
def inst0 : PtyInstance :=
  { writer := 0, cwd := "/tmp", uses_pty := true, master := some 1,
    child_handle := none }

/-- A sample degraded-mode (pipes, no PTY) instance. -/
def instDegraded : PtyInstance :=
  { writer := 2, cwd := "/home", uses_pty := false, master := none,
    child_handle := some 7 }

/-- A sample manager state holding one real-PTY session `"a"` (with its
pending exit monitor) and one degraded session `"d"`. -/
def st0 : ManagerState :=
  { instances := [("a", inst0), ("d", instDegraded)]
    writers := [(0, { written := [], flushes := 0 }),
                (2, { written := [], flushes := 0 })]
    monitors := [{ sid := "a", proc := 0 }]
    events := []
    resizes := []
    killedProcs := []
    nextHandle := 3
    nextProc := 1 }

/-- A sample host environment used to instantiate theorems. -/
def hostEnv : Env :=
  fun k =>
    if k = "PATH" then some "/usr/bin:/bin"
    else if k = "HOME" then some "/root"
    else if k = "TERM" then some "dumb"
    else none

/-! ### Helper lemmas about the registry association list -/

theorem lookup_erase_self (m : List (String × PtyInstance)) (id : String) :
    lookupInst (eraseInst m id) id = none := by
  induction m with
  | nil => rfl
  | cons kv rest ih =>
      by_cases h : kv.1 = id
      · simpa [eraseInst, List.filter_cons, h] using ih
      · simpa [eraseInst, List.filter_cons, h, lookupInst] using ih

theorem lookup_erase_ne (m : List (String × PtyInstance)) (id id' : String)
    (h : id' ≠ id) : lookupInst (eraseInst m id) id' = lookupInst m id' := by
  induction m with
  | nil => rfl
  | cons kv rest ih =>
      by_cases hk : kv.1 = id
      · have h2 : ¬ (id = id') := fun hc => h hc.symm
        simp [eraseInst, List.filter_cons, hk, lookupInst, h2] at *
        exact ih
      · by_cases hk' : kv.1 = id'
        · simp [eraseInst, List.filter_cons, lookupInst, hk', h]
        · simp [eraseInst, List.filter_cons, hk, lookupInst, hk'] at *
          exact ih

theorem lookup_insert_self (m : List (String × PtyInstance)) (id : String)
    (v : PtyInstance) : lookupInst (insertInst m id v) id = some v := by
  simp [insertInst, lookupInst]

theorem lookup_insert_ne (m : List (String × PtyInstance)) (id id' : String)
    (v : PtyInstance) (h : id' ≠ id) :
    lookupInst (insertInst m id v) id' = lookupInst m id' := by
  have : id ≠ id' := fun hc => h hc.symm
  simp [insertInst, lookupInst, this]
  exact lookup_erase_ne m id id' h

/-! ### Claim theorems -/

/-- C8: shell resolution is a pure, total function of the host OS and
environment that never fails: Windows yields PowerShell with its
non-interactive startup flags; macOS yields `$SHELL` (defaulting to
`/bin/zsh` when unset) with the login flag `-l` as its only argument; Linux
yields `$SHELL`, falling back to `/bin/bash` when that file exists and
otherwise `/bin/sh`, with an empty argument list. -/
theorem get_default_shell_spec :
    (∀ e b, get_default_shell .windows e b =
        ("powershell.exe", ["-ExecutionPolicy", "Bypass", "-NoLogo"])) ∧
    (∀ s b, get_default_shell .macos (some s) b = (s, ["-l"])) ∧
    (∀ b, get_default_shell .macos none b = ("/bin/zsh", ["-l"])) ∧
    (∀ s b, get_default_shell .linux (some s) b = (s, [])) ∧
    (get_default_shell .linux none true = ("/bin/bash", [])) ∧
    (get_default_shell .linux none false = ("/bin/sh", [])) :=
  ⟨fun _ _ => rfl, fun _ _ => rfl, fun _ => rfl, fun _ _ => rfl, rfl, rfl⟩

/-- C9: the child-environment builder returns the host environment with
`TERM`/`COLORTERM` forced to fixed terminal-capability values and the locale
variables forced to UTF-8 values (the forced values win regardless of the
host's), with `PATH` rewritten on macOS only (Homebrew directories prepended
to the inherited value, which is left untouched on Windows and Linux), and
every key outside that overridden set keeps its host value. -/
theorem create_utf8_env_spec :
    (∀ os host,
        create_utf8_env os host "TERM" = some "xterm-256color" ∧
        create_utf8_env os host "COLORTERM" = some "truecolor" ∧
        create_utf8_env os host "LANG" = some "en_US.UTF-8" ∧
        create_utf8_env os host "LC_ALL" = some "en_US.UTF-8" ∧
        create_utf8_env os host "PYTHONIOENCODING" = some "utf-8" ∧
        create_utf8_env os host "PYTHONUTF8" = some "1") ∧
    (∀ os host k, k ∉ overriddenKeys → k ≠ "PATH" →
        create_utf8_env os host k = host k) ∧
    (∀ host, create_utf8_env .windows host "PATH" = host "PATH") ∧
    (∀ host, create_utf8_env .linux host "PATH" = host "PATH") ∧
    (∀ host p, host "PATH" = some p → p ≠ "" →
        create_utf8_env .macos host "PATH" =
          some (homebrewPaths ++ ":" ++ p)) ∧
    (∀ host, host "PATH" = none →
        create_utf8_env .macos host "PATH" = some homebrewPaths) ∧
    (∀ host, host "PATH" = some "" →
        create_utf8_env .macos host "PATH" = some homebrewPaths) := by
  refine ⟨?_, ?_, ?_, ?_, ?_, ?_, ?_⟩
  · intro os host
    cases os <;> simp [create_utf8_env, insertEnv]
  · intro os host k hk hp
    simp [overriddenKeys] at hk
    obtain ⟨h1, h2, h3, h4, h5, h6⟩ := hk
    cases os <;> simp [create_utf8_env, insertEnv, h1, h2, h3, h4, h5, h6, hp]
  · intro host
    simp [create_utf8_env, insertEnv]
  · intro host
    simp [create_utf8_env, insertEnv]
  · intro host p hp hne
    simp [create_utf8_env, insertEnv, hp, hne]
  · intro host hp
    simp [create_utf8_env, insertEnv, hp]
  · intro host hp
    simp [create_utf8_env, insertEnv, hp]

/-- C9 witness: concrete instantiation on `hostEnv` — an unrelated key
(`HOME`) is preserved on Linux, and the macOS `PATH` is the Homebrew
directories prepended to the inherited value. -/
theorem create_utf8_env_spec_witness :
    create_utf8_env .linux hostEnv "HOME" = hostEnv "HOME" ∧
    create_utf8_env .macos hostEnv "PATH" =
      some (homebrewPaths ++ ":" ++ "/usr/bin:/bin") := by
  constructor
  · exact create_utf8_env_spec.2.1 .linux hostEnv "HOME" (by decide) (by decide)
  · exact create_utf8_env_spec.2.2.2.2.1 hostEnv "/usr/bin:/bin" rfl (by decide)

/-- C1: `write(id, data)` fails with the not-found error when no session is
registered under `id` (state untouched); on a registered session it appends
exactly the UTF-8 bytes of `data` to that session's writer and flushes; and
on a `write_all` or `flush` I/O error the formatted error is returned while
the registry keeps the session registered unchanged. -/
theorem write_spec :
    (∀ st id data out, lookupInst st.instances id = none →
        write st id data out = (.error "PTY instance not found", st)) ∧
    (∀ st id data inst, lookupInst st.instances id = some inst →
        write st id data .ok =
          (.ok (), { st with writers := (updateWriter st.writers inst.writer
              (fun w => { written := w.written ++ utf8Bytes data,
                          flushes := w.flushes + 1 })) })) ∧
    (∀ st id data inst e, lookupInst st.instances id = some inst →
        write st id data (.writeErr e) =
          (.error ("Failed to write: " ++ e), st) ∧
        (write st id data (.flushErr e)).1 =
          .error ("Failed to flush: " ++ e) ∧
        (write st id data (.flushErr e)).2.instances = st.instances ∧
        lookupInst (write st id data (.flushErr e)).2.instances id =
          some inst) := by
  refine ⟨?_, ?_, ?_⟩
  · intro st id data out h
    simp [write, h]
  · intro st id data inst h
    simp [write, h]
  · intro st id data inst e h
    refine ⟨by simp [write, h], by simp [write, h], by simp [write, h],
      by simp [write, h]⟩

/-- C1 witness: on the empty manager a write fails with the not-found error;
on `st0` a write to the registered session `"a"` succeeds, and a failing
`write_all` surfaces its formatted error. -/
theorem write_spec_witness :
    write initialState "a" "hi" .ok =
      (.error "PTY instance not found", initialState) ∧
    (write st0 "a" "hi" .ok).1 = .ok () ∧
    (write st0 "a" "x" (.writeErr "broken pipe")).1 =
      .error ("Failed to write: " ++ "broken pipe") := by
  refine ⟨write_spec.1 initialState "a" "hi" .ok rfl, ?_, ?_⟩
  · rw [write_spec.2.1 st0 "a" "hi" inst0 rfl]
  · exact congrArg Prod.fst
      (write_spec.2.2 st0 "a" "x" inst0 "broken pipe" rfl).1

/-- C2: `kill(id)` never returns an error — its result is `Ok(existed)`; on
an unknown id it is a no-op returning `Ok(false)`, and on a registered id it
returns `Ok(true)`, removes exactly that entry (other entries' lookups are
untouched), after which `write(id, …)` fails with the not-found lookup
error. -/
theorem kill_spec :
    (∀ st id, (kill st id).1 = .ok (lookupInst st.instances id).isSome) ∧
    (∀ st id, lookupInst st.instances id = none →
        kill st id = (.ok false, st)) ∧
    (∀ st id inst, lookupInst st.instances id = some inst →
        (kill st id).1 = .ok true ∧
        lookupInst (kill st id).2.instances id = none ∧
        (∀ id', id' ≠ id →
            lookupInst (kill st id).2.instances id' =
              lookupInst st.instances id') ∧
        (∀ data out, write (kill st id).2 id data out =
            (.error "PTY instance not found", (kill st id).2))) := by
  refine ⟨?_, ?_, ?_⟩
  · intro st id
    rcases h : lookupInst st.instances id with _ | inst <;> simp [kill, h]
  · intro st id h
    simp [kill, h]
  · intro st id inst h
    refine ⟨by simp [kill, h], ?_, ?_, ?_⟩
    · simp [kill, h, lookup_erase_self]
    · intro id' hne
      simp [kill, h, lookup_erase_ne _ _ _ hne]
    · intro data out
      simp [write, kill, h, lookup_erase_self]

/-- C2 witness: killing on the empty manager returns `false` and changes
nothing; killing the registered session `"a"` of `st0` returns `true`, after
which a write to `"a"` fails with the not-found error. -/
theorem kill_spec_witness :
    kill initialState "a" = (.ok false, initialState) ∧
    (kill st0 "a").1 = .ok true ∧
    write (kill st0 "a").2 "a" "x" .ok =
      (.error "PTY instance not found", (kill st0 "a").2) := by
  refine ⟨kill_spec.2.1 initialState "a" rfl,
    (kill_spec.2.2 st0 "a" inst0 rfl).1,
    (kill_spec.2.2 st0 "a" inst0 rfl).2.2.2 "x" .ok⟩

/-- C4: `resize(id, cols, rows)` always returns success and never alters the
registry: on an unknown id or a non-RealPty session it is a complete no-op,
and on a RealPty session with a live master it records the OS resize request
and returns success whatever the OS result (`osResult` is ignored, including
errors). -/
theorem resize_spec :
    (∀ st id cols rows r, (resize st id cols rows r).1 = .ok ()) ∧
    (∀ st id cols rows r, (resize st id cols rows r).2.instances =
        st.instances) ∧
    (∀ st id cols rows r, lookupInst st.instances id = none →
        resize st id cols rows r = (.ok (), st)) ∧
    (∀ st id cols rows r inst, lookupInst st.instances id = some inst →
        inst.uses_pty = false → resize st id cols rows r = (.ok (), st)) ∧
    (∀ st id cols rows inst m, lookupInst st.instances id = some inst →
        inst.uses_pty = true → inst.master = some m →
        ∀ r, resize st id cols rows r =
          (.ok (), { st with resizes := st.resizes ++ [(m, cols, rows)] })) := by
  refine ⟨?_, ?_, ?_, ?_, ?_⟩
  · intro st id cols rows r
    rcases h : lookupInst st.instances id with _ | inst
    · simp [resize, h]
    · rcases hm : inst.master with _ | m <;> cases hp : inst.uses_pty <;>
        simp [resize, h, hm, hp]
  · intro st id cols rows r
    rcases h : lookupInst st.instances id with _ | inst
    · simp [resize, h]
    · rcases hm : inst.master with _ | m <;> cases hp : inst.uses_pty <;>
        simp [resize, h, hm, hp]
  · intro st id cols rows r h
    simp [resize, h]
  · intro st id cols rows r inst h hp
    simp [resize, h, hp]
  · intro st id cols rows inst m h hp hm r
    simp [resize, h, hp, hm]

/-- C4 witness: resizing an unknown id on the empty manager, and the
degraded session `"d"` of `st0`, are exact no-ops returning success; resizing
the RealPty session `"a"` records the request on master handle `1` and
returns success even when the OS resize fails. -/
theorem resize_spec_witness :
    resize initialState "z" 80 24 (.error "einval") = (.ok (), initialState) ∧
    resize st0 "d" 80 24 (.ok ()) = (.ok (), st0) ∧
    resize st0 "a" 80 24 (.error "einval") =
      (.ok (), { st0 with resizes := st0.resizes ++ [(1, 80, 24)] }) := by
  refine ⟨resize_spec.2.2.1 initialState "z" 80 24 (.error "einval") rfl,
    resize_spec.2.2.2.1 st0 "d" 80 24 (.ok ()) instDegraded rfl rfl,
    resize_spec.2.2.2.2 st0 "a" 80 24 inst0 1 rfl rfl rfl (.error "einval")⟩

/-- C5: a successful `create(id, cwd)` immediately followed by `getCwd(id)`
returns `Some(cwd)`, the exact string supplied at creation; and `get_cwd` is
a pure lookup — it returns the recorded directory and leaves the manager
state exactly as it was. -/
theorem create_get_cwd_spec :
    ∀ st id cwd,
      (create st id cwd .ok).1 = .ok true ∧
      get_cwd (create st id cwd .ok).2 id =
        (.ok (some cwd), (create st id cwd .ok).2) ∧
      (∀ st2 id2, (get_cwd st2 id2).2 = st2 ∧
          (get_cwd st2 id2).1 =
            .ok ((lookupInst st2.instances id2).map PtyInstance.cwd)) := by
  intro st id cwd
  refine ⟨rfl, ?_, fun st2 id2 => ⟨rfl, rfl⟩⟩
  simp [create, create_with_portable_pty, get_cwd, lookup_insert_self]

/-- C6: `create(id, cwd)` always attempts RealPty mode — the inserted entry
is PTY-backed with no child pipe handle — returning `Ok(true)` on success;
on any failing step (PTY open, spawn, reader clone, writer take) it returns
the formatted error and inserts no entry, the PTY-open and spawn failures
leaving the whole state untouched. -/
theorem create_spec :
    (∀ st id cwd, (create st id cwd .ok).1 = .ok true ∧
        lookupInst (create st id cwd .ok).2.instances id =
          some { writer := st.nextHandle, cwd := cwd, uses_pty := true,
                 master := some (st.nextHandle + 1), child_handle := none }) ∧
    (∀ st id cwd e,
        create st id cwd (.openptyFail e) =
          (.error ("Failed to open pty: " ++ e), st) ∧
        create st id cwd (.spawnFail e) =
          (.error ("Failed to spawn command: " ++ e), st) ∧
        (create st id cwd (.cloneReaderFail e)).1 =
          .error ("Failed to clone reader: " ++ e) ∧
        (create st id cwd (.takeWriterFail e)).1 =
          .error ("Failed to take writer: " ++ e)) ∧
    (∀ st id cwd out, out ≠ CreateOutcome.ok →
        (create st id cwd out).2.instances = st.instances ∧
        ∃ msg, (create st id cwd out).1 = .error msg) := by
  refine ⟨?_, ?_, ?_⟩
  · intro st id cwd
    exact ⟨rfl, by simp [create, create_with_portable_pty, lookup_insert_self]⟩
  · intro st id cwd e
    exact ⟨rfl, rfl, rfl, rfl⟩
  · intro st id cwd out hout
    cases out with
    | openptyFail e => exact ⟨rfl, "Failed to open pty: " ++ e, rfl⟩
    | spawnFail e => exact ⟨rfl, "Failed to spawn command: " ++ e, rfl⟩
    | cloneReaderFail e => exact ⟨rfl, "Failed to clone reader: " ++ e, rfl⟩
    | takeWriterFail e => exact ⟨rfl, "Failed to take writer: " ++ e, rfl⟩
    | ok => exact absurd rfl hout

/-- C6 witness: on the empty manager, a successful create returns true and
registers a RealPty-backed entry, while a PTY-open failure returns its error
with the state untouched and a reader-clone failure inserts no entry. -/
theorem create_spec_witness :
    (create initialState "a" "/tmp" .ok).1 = .ok true ∧
    create initialState "a" "/tmp" (.openptyFail "boom") =
      (.error ("Failed to open pty: " ++ "boom"), initialState) ∧
    (create initialState "a" "/tmp" (.cloneReaderFail "gone")).2.instances =
      initialState.instances := by
  refine ⟨(create_spec.1 initialState "a" "/tmp").1,
    (create_spec.2.1 initialState "a" "/tmp" "boom").1,
    (create_spec.2.2 initialState "a" "/tmp" (.cloneReaderFail "gone")
      (by decide)).1⟩

/-- C7: every successful create installs exactly one exit monitor; a firing
monitor appends exactly one exit event for its session (a failed `wait`
mapping to exit code 1, a successful one to its status), consumes itself and
removes the session entry, after which write/kill/getCwd lookups treat the id
as unknown; and no other operation removes entries implicitly — write and
resize leave the registry untouched and `get_cwd` leaves the whole state
untouched. -/
theorem exit_monitor_spec :
    (∀ st m w, (runMonitor st m w).events =
        st.events ++ [Event.exit m.sid (exitCodeOfWait w)] ∧
        lookupInst (runMonitor st m w).instances m.sid = none ∧
        (runMonitor st m w).monitors = st.monitors.erase m) ∧
    (∀ e, exitCodeOfWait (.error e) = 1) ∧
    (∀ c, exitCodeOfWait (.ok c) = c) ∧
    (∀ st id cwd, (create st id cwd .ok).2.monitors =
        ({ sid := id, proc := st.nextProc } : Monitor) :: st.monitors) ∧
    (∀ st m w data out, write (runMonitor st m w) m.sid data out =
        (.error "PTY instance not found", runMonitor st m w)) ∧
    (∀ st m w, (kill (runMonitor st m w) m.sid).1 = .ok false) ∧
    (∀ st m w, (get_cwd (runMonitor st m w) m.sid).1 = .ok none) ∧
    (∀ st id data out, (write st id data out).2.instances = st.instances) ∧
    (∀ st id cols rows r,
        (resize st id cols rows r).2.instances = st.instances) ∧
    (∀ st id, get_cwd st id =
        (.ok ((lookupInst st.instances id).map PtyInstance.cwd), st)) := by
  refine ⟨?_, fun _ => rfl, fun _ => rfl, fun _ _ _ => rfl, ?_, ?_, ?_, ?_, ?_,
    fun _ _ => rfl⟩
  · intro st m w
    exact ⟨rfl, by simp [runMonitor, lookup_erase_self], rfl⟩
  · intro st m w data out
    simp [write, runMonitor, lookup_erase_self]
  · intro st m w
    simp [kill, runMonitor, lookup_erase_self]
  · intro st m w
    simp [get_cwd, runMonitor, lookup_erase_self]
  · intro st id data out
    rcases h : lookupInst st.instances id with _ | inst
    · simp [write, h]
    · cases out <;> simp [write, h]
  · intro st id cols rows r
    rcases h : lookupInst st.instances id with _ | inst
    · simp [resize, h]
    · rcases hm : inst.master with _ | m <;> cases hp : inst.uses_pty <;>
        simp [resize, h, hm, hp]

/-- C3: `restart(id, cwd)` fails with the not-found error and leaves the
state untouched when no entry exists for `id`; on an existing entry, a
successful restart reports true, a subsequent `getCwd(id)` returns the new
`cwd`, exactly one fresh monitor (for the new process identity) is added, and
every previously pending monitor — in particular the old session's — is kept,
is distinct from the fresh one, and when it fires it emits exactly one exit
event for the old process. -/
theorem restart_spec :
    (∀ st id cwd out, lookupInst st.instances id = none →
        restart st id cwd out = (.error "PTY instance not found", st)) ∧
    (∀ st id cwd inst, lookupInst st.instances id = some inst →
        (restart st id cwd .ok).1 = .ok true ∧
        (get_cwd (restart st id cwd .ok).2 id).1 = .ok (some cwd) ∧
        (restart st id cwd .ok).2.monitors =
          ({ sid := id, proc := st.nextProc } : Monitor) :: st.monitors ∧
        (∀ mOld, mOld ∈ st.monitors →
            mOld ∈ (restart st id cwd .ok).2.monitors ∧
            (mOld.proc < st.nextProc →
              mOld ≠ ({ sid := id, proc := st.nextProc } : Monitor)) ∧
            (∀ w, (runMonitor (restart st id cwd .ok).2 mOld w).events =
                (restart st id cwd .ok).2.events ++
                  [Event.exit mOld.sid (exitCodeOfWait w)]))) := by
  constructor
  · intro st id cwd out h
    simp [restart, h]
  · intro st id cwd inst h
    rcases hch : inst.child_handle with _ | p
    all_goals
      refine ⟨?_, ?_, ?_, ?_⟩
      · simp [restart, h, kill, hch, create, create_with_portable_pty]
      · simp [restart, h, kill, hch, create, create_with_portable_pty,
          get_cwd, lookup_insert_self]
      · simp [restart, h, kill, hch, create, create_with_portable_pty]
      · intro mOld hm
        refine ⟨?_, ?_, fun w => rfl⟩
        · simp [restart, h, kill, hch, create, create_with_portable_pty]
          exact Or.inr hm
        · intro hlt heq
          rw [heq] at hlt
          exact lt_irrefl _ hlt

/-- C3 witness: restarting an unknown id on the empty manager fails with the
not-found error; restarting session `"a"` of `st0` succeeds, `getCwd`
afterwards returns the new directory, the old pending monitor survives and is
distinct from the freshly installed one. -/
theorem restart_spec_witness :
    restart initialState "a" "/new" .ok =
      (.error "PTY instance not found", initialState) ∧
    (restart st0 "a" "/new" .ok).1 = .ok true ∧
    (get_cwd (restart st0 "a" "/new" .ok).2 "a").1 = .ok (some "/new") ∧
    ({ sid := "a", proc := 0 } : Monitor) ∈
      (restart st0 "a" "/new" .ok).2.monitors ∧
    ({ sid := "a", proc := 0 } : Monitor) ≠
      ({ sid := "a", proc := st0.nextProc } : Monitor) := by
  have hmain := restart_spec.2 st0 "a" "/new" inst0 rfl
  have hold := hmain.2.2.2 { sid := "a", proc := 0 } (by decide)
  exact ⟨restart_spec.1 initialState "a" "/new" .ok rfl, hmain.1, hmain.2.1,
    hold.1, hold.2.1 (by decide)⟩

/-- C10: restart is not atomic on failure — when the id exists, the kill step
succeeds, and the subsequent create step fails (PTY open or spawn error),
restart returns that error while the original entry has already been
destroyed: no registry entry remains under the id and the pre-restart entry
is not restored. -/
theorem restart_not_atomic :
    ∀ st id cwd inst e, lookupInst st.instances id = some inst →
      (restart st id cwd (.openptyFail e)).1 =
        .error ("Failed to open pty: " ++ e) ∧
      (restart st id cwd (.openptyFail e)).2.instances =
        eraseInst st.instances id ∧
      lookupInst (restart st id cwd (.openptyFail e)).2.instances id = none ∧
      (restart st id cwd (.spawnFail e)).1 =
        .error ("Failed to spawn command: " ++ e) ∧
      lookupInst (restart st id cwd (.spawnFail e)).2.instances id = none := by
  intro st id cwd inst e h
  rcases hch : inst.child_handle with _ | p
  all_goals
    refine ⟨?_, ?_, ?_, ?_, ?_⟩ <;>
      simp [restart, h, kill, hch, create, create_with_portable_pty,
        lookup_erase_self]

/-- C10 witness: restarting session `"a"` of `st0` with a failing PTY open
returns the open error and leaves no entry under `"a"`. -/
theorem restart_not_atomic_witness :
    (restart st0 "a" "/new" (.openptyFail "boom")).1 =
      .error ("Failed to open pty: " ++ "boom") ∧
    lookupInst (restart st0 "a" "/new" (.openptyFail "boom")).2.instances
      "a" = none := by
  have hmain := restart_not_atomic st0 "a" "/new" inst0 "boom" rfl
  exact ⟨hmain.1, hmain.2.2.1⟩

end Moonterm
